import Mathlib

/-!
Verification of the USSD-over-TCP client (main.go) against its design
specification: byte-level frame construction and parsing, the logon
handshake session key, keepalive framing, and the session responder that
answers inbound USSDRequest events.

Go byte slices are modelled as lists of characters: every byte the code in
scope handles is ASCII (session keys, decimal digit runs, XML text), and a
zero byte is `Char.ofNat 0`.
-/

namespace USSDTCP

/-- A Go byte slice, modelled as a list of (ASCII) characters. -/
abbrev Bytes := List Char

/-- The zero byte that Go `make([]byte, n)` fills fresh buffers with. -/
def nulByte : Char := Char.ofNat 0

/-- Go `copy(buf[off : off+room], src)`: writes `min room src.length` bytes
of `src` into `buf` starting at offset `off`; the rest of `buf` is kept. -/
def goCopyAt (buf : Bytes) (off room : Nat) (src : Bytes) : Bytes :=
  let n := min room src.length
  buf.take off ++ src.take n ++ buf.drop (off + n)

/-- Go `fmt.Sprintf("%03d", n)`: the decimal digits of `n`, zero-padded on
the left to a minimum width of 3; numbers of four or more digits keep all
their digits (the width is a minimum, not a cap). -/
def sprintf03d (n : Nat) : String :=
  let s := Nat.repr n
  if s.length < 3 then String.mk (List.replicate (3 - s.length) '0' ++ s.data) else s

/-- main.go:503-510 `createHeader sessionID length`. The Go code allocates a
32-byte buffer (`make([]byte, 32)`), copies `sessionID` into bytes 0..15
(truncating at 16, zero bytes pad shorter ids) and the `%03d` rendering of
`length` at offset 16 (room: 16 bytes, so a long digit run is kept up to 16
digits); the buffer is returned whole, all 32 bytes. -/
def createHeader (sessionID : String) (length : Nat) : Bytes :=
  let header : Bytes := List.replicate 32 nulByte
  let header := goCopyAt header 0 16 sessionID.data
  let lengthStr := sprintf03d length
  goCopyAt header 16 16 lengthStr.data

/-- main.go:512-522 `sendMessage`: the exact byte sequence handed to
`conn.Write` for payload `message` under key `sessionID` — the header built
with declared length `len(message) + 32`, then the payload. There is no
failure path: a frame is produced for every payload. -/
def sendMessage (message : Bytes) (sessionID : String) : Bytes :=
  let fullXML := message
  let header := createHeader sessionID (fullXML.length + 32)
  header ++ fullXML

/-- The readable side of the TCP connection: the byte chunks the socket
will deliver, in arrival order. An empty chunk list models the 5-second
read deadline expiring with no data available. -/
structure Conn where
  chunks : List Bytes
deriving DecidableEq

/-- One Go `conn.Read(buf)` with `buf.length = bufLen`: returns bytes from
the front chunk only — at most `bufLen` of them, and possibly fewer than
`bufLen` without any error (a short read); any unread remainder of the
chunk stays at the front of the stream. `none` is the deadline timeout
(no data at all). A zero-length buffer returns immediately with no data. -/
def connRead (c : Conn) (bufLen : Nat) : Option (Bytes × Conn) :=
  if bufLen = 0 then some ([], c)
  else
    match c.chunks with
    | [] => none
    | chunk :: rest =>
        let got := chunk.take bufLen
        let leftover := chunk.drop bufLen
        some (got, ⟨if leftover = [] then rest else leftover :: rest⟩)

/-- A Go buffer `make([]byte, n)` after a read delivered `got`: the prefix
holds `got`, the untouched tail stays zero. The source ignores the byte
count returned by `conn.Read`, so the whole buffer is used afterwards. -/
def fillBuf (n : Nat) (got : Bytes) : Bytes :=
  got ++ List.replicate (n - got.length) nulByte

/-- Value of a run of decimal digit characters. -/
def digitsVal (s : List Char) : Nat :=
  s.foldl (fun a c => a * 10 + (c.toNat - '0'.toNat)) 0

/-- Go `strconv.Atoi`: an optional sign followed by at least one character,
every remaining character a decimal digit; anything else is an error. -/
def atoi (s : List Char) : Option Int :=
  match s with
  | [] => none
  | '+' :: rest =>
      if !rest.isEmpty && rest.all Char.isDigit then some (digitsVal rest) else none
  | '-' :: rest =>
      if !rest.isEmpty && rest.all Char.isDigit then some (-(digitsVal rest : Int)) else none
  | _ => if s.all Char.isDigit then some (digitsVal s) else none

/-- main.go:524-557 `readResponse`: reads a 19-byte header buffer (one
`conn.Read`, byte count ignored), parses bytes 16..18 with `strconv.Atoi`
as the declared length `L`, then reads one `L - 16`-byte body buffer (one
`conn.Read`, byte count again ignored) and returns `(header, body)`.
Errors (`none`): read timeout with no data, or non-numeric length field.
For a parsed length below 16 the Go code would panic allocating a buffer
of negative size; that is modelled as a failure (no claim reaches it). -/
def readResponse (c : Conn) : Option (Bytes × Bytes × Conn) :=
  match connRead c 19 with
  | none => none
  | some (got, c1) =>
      let header := fillBuf 19 got
      match atoi (header.drop 16) with
      | none => none
      | some length =>
          if length < 16 then none
          else
            match connRead c1 (length - 16).toNat with
            | none => none
            | some (got2, c2) => some (header, fillBuf (length - 16).toNat got2, c2)

/-- The 16-byte key field a frame carries for a given key string: the key
truncated at 16 bytes, zero bytes padding a shorter key. -/
def pad16 (s : Bytes) : Bytes :=
  s.take 16 ++ List.replicate (16 - s.length) nulByte

theorem goCopyAt_length (buf : Bytes) (off room : Nat) (src : Bytes)
    (h : off + room ≤ buf.length) : (goCopyAt buf off room src).length = buf.length := by
  simp only [goCopyAt, List.length_append, List.length_take, List.length_drop]
  omega

theorem createHeader_length (sessionID : String) (length : Nat) :
    (createHeader sessionID length).length = 32 := by
  unfold createHeader
  have h1 : (goCopyAt (List.replicate 32 nulByte) 0 16 sessionID.data).length = 32 := by
    rw [goCopyAt_length] <;> simp
  have h2 := goCopyAt_length (goCopyAt (List.replicate 32 nulByte) 0 16 sessionID.data)
    16 16 (sprintf03d length).data (by rw [h1])
  rw [h2, h1]

theorem sendMessage_length (message : Bytes) (sessionID : String) :
    (sendMessage message sessionID).length = 32 + message.length := by
  simp only [sendMessage, List.length_append, createHeader_length]

theorem inner_copy_take16 (s : Bytes) :
    (s.take (min 16 s.length) ++ (List.replicate 32 nulByte).drop (min 16 s.length)).take 16
      = pad16 s := by
  unfold pad16
  rcases le_total s.length 16 with h | h
  · rw [Nat.min_eq_right h, List.take_length, List.drop_replicate,
      List.take_append_eq_append_take, List.take_replicate]
    have hmin : min (16 - s.length) (32 - s.length) = 16 - s.length := by omega
    rw [hmin]
  · rw [Nat.min_eq_left h, List.drop_replicate,
      List.take_append_of_le_length (by simp; omega), List.take_take, Nat.min_self]
    have hz : 16 - s.length = 0 := by omega
    rw [hz]
    simp

theorem outer_copy_take16 (buf src : Bytes) (hlen : buf.length = 32) :
    (goCopyAt buf 16 16 src).take 16 = buf.take 16 := by
  simp only [goCopyAt]
  rw [List.take_append_of_le_length (by simp [hlen]),
    List.take_append_of_le_length (by simp [hlen]), List.take_take, Nat.min_self]

theorem createHeader_key (sessionID : String) (length : Nat) :
    (createHeader sessionID length).take 16 = pad16 sessionID.data := by
  unfold createHeader
  rw [outer_copy_take16 _ _ (by rw [goCopyAt_length] <;> simp)]
  simp only [goCopyAt, List.take_zero, List.nil_append, Nat.zero_add]
  exact inner_copy_take16 sessionID.data

theorem sendMessage_key (message : Bytes) (sessionID : String) :
    (sendMessage message sessionID).take 16 = pad16 sessionID.data := by
  unfold sendMessage
  rw [List.take_append_of_le_length]
  · exact createHeader_key sessionID (message.length + 32)
  · rw [createHeader_length]
    omega

/-- structs.go `USSDRequest`: one inbound dialog event as unmarshalled from
the XML body (Go string fields default to "", int fields to 0). -/
structure USSDRequest where
  RequestID : String
  MSISDN : String
  IMSI : String := ""
  StarCode : String
  ClientID : String
  Phase : Int
  DCS : Int
  MsgType : Int
  UserData : String
  EndOfSession : Int
  ErrorCode : String := ""
deriving DecidableEq

/-- structs.go `USSDMenuResponse`: the menu resolver verdict, a message
text and the continuation decision. -/
structure USSDMenuResponse where
  Message : String
  Continue : Bool
deriving DecidableEq

/-- The `USSDResponse` record as built in main.go:742-752 (fields read off
the struct literal; only these nine fields are ever set). -/
structure USSDResponse where
  RequestID : String
  MSISDN : String
  StarCode : String
  ClientID : String
  Phase : Int
  DCS : Int
  MsgType : Int
  UserData : String
  EndOfSession : Int
deriving DecidableEq

/-- main.go:763-773: the reply payload, rendered with `fmt.Sprintf` over a
raw template (each line after the first begins with a tab, `%d` fields are
decimal integers). -/
def ussdResponseXML (r : USSDResponse) : Bytes :=
  ("<USSDResponse>\n\t<requestId>" ++ r.RequestID
    ++ "</requestId>\n\t<msisdn>" ++ r.MSISDN
    ++ "</msisdn>\n\t<starCode>" ++ r.StarCode
    ++ "</starCode>\n\t<clientId>" ++ r.ClientID
    ++ "</clientId>\n\t<phase>" ++ toString r.Phase
    ++ "</phase>\n\t<dcs>" ++ toString r.DCS
    ++ "</dcs>\n\t<msgtype>" ++ toString r.MsgType
    ++ "</msgtype>\n\t<userdata>" ++ r.UserData
    ++ "</userdata>\n\t<EndofSession>" ++ toString r.EndOfSession
    ++ "</EndofSession>\n\t</USSDResponse>").data

/-- What one Session Responder invocation does to the socket:
`dropped` — the handler returned before the menu resolver was called
(validation failure or terminal event), `resolverFailed` — the resolver was
called and failed, no frame written, `sent frame` — the resolver succeeded
and `frame` is the byte sequence written to the connection. -/
inductive HandlerOutcome where
  | dropped
  | resolverFailed
  | sent (frame : Bytes)
deriving DecidableEq

/-- The frame an outcome put on the wire, if any. -/
def emitted : HandlerOutcome → Option Bytes
  | .sent frame => some frame
  | _ => none

/-- main.go:706-781 `handleMenuRequest`. The external HTTP menu resolver
(`getUssdMenu`) is passed in as a function; `none` models any resolver
failure (transport error, missing URL, unparsable body). Monitoring posts
are fire-and-forget HTTP, not socket writes, and are not modelled. -/
def handleMenuRequest (resolver : USSDRequest → Option USSDMenuResponse)
    (req : USSDRequest) : HandlerOutcome :=
  if req.MsgType ≠ 1 ∧ req.MsgType ≠ 4 then .dropped
  else if req.UserData = "" then .dropped
  else
    match resolver req with
    | none => .resolverFailed
    | some apiResponse =>
        let ussdMessage := apiResponse.Message
        let ussdContinue := apiResponse.Continue
        let response : USSDResponse :=
          { RequestID := req.RequestID, MSISDN := req.MSISDN, StarCode := req.StarCode,
            ClientID := req.ClientID, Phase := req.Phase, DCS := req.DCS,
            MsgType := 2, UserData := ussdMessage, EndOfSession := 0 }
        let response :=
          if !ussdContinue then { response with EndOfSession := 1, MsgType := 6 }
          else response
        let messageXML := ussdResponseXML response
        .sent (sendMessage messageXML response.RequestID)

/-- main.go:691-703 `handleUSSDRequest`: a non-empty error code or a
nonzero EndofSession is only logged; otherwise the menu path runs. -/
def handleUSSDRequest (resolver : USSDRequest → Option USSDMenuResponse)
    (req : USSDRequest) : HandlerOutcome :=
  if req.ErrorCode ≠ "" then .dropped
  else if req.EndOfSession = 0 then handleMenuRequest resolver req
  else .dropped

/-- The response record the success path of main.go:742-757 builds for
request `req` and resolver verdict `r` (the struct literal with MsgType 2 /
EndOfSession 0, overwritten to 6 / 1 when the resolver said stop). -/
def responseFor (req : USSDRequest) (r : USSDMenuResponse) : USSDResponse :=
  { RequestID := req.RequestID, MSISDN := req.MSISDN, StarCode := req.StarCode,
    ClientID := req.ClientID, Phase := req.Phase, DCS := req.DCS,
    MsgType := if r.Continue then 2 else 6,
    UserData := r.Message,
    EndOfSession := if r.Continue then 0 else 1 }

/-- main.go:609 — the session key of the connection: the first 16 bytes of
the logon response header. -/
def extractSessionID (header : Bytes) : String :=
  String.mk (header.take 16)

/-- `xml.Marshal(EnquireLink{})` for the empty struct tagged ENQRequest. -/
def enquireLinkXML : Bytes := "<ENQRequest></ENQRequest>".data

/-- main.go:624-631 — the frame written at one keepalive tick. -/
def keepaliveFrame (sessionID : String) : Bytes :=
  sendMessage enquireLinkXML sessionID

/-- The frames written by the first `ticks` iterations of the keepalive
loop: every tick reuses the same sessionID variable, fixed at logon. -/
def keepaliveFrames (sessionID : String) (ticks : Nat) : List Bytes :=
  List.replicate ticks (keepaliveFrame sessionID)

theorem connRead_got_length (c : Conn) (n : Nat) (got : Bytes) (c' : Conn)
    (h : connRead c n = some (got, c')) : got.length ≤ n := by
  unfold connRead at h
  split at h
  · obtain ⟨rfl, rfl⟩ : got = [] ∧ c' = c := by
      simpa using h.symm
    simp
  · split at h
    · exact absurd h (by simp)
    · obtain ⟨rfl, -⟩ : _ ∧ _ := by
        simpa using h.symm
      simp

theorem fillBuf_length (n : Nat) (got : Bytes) (h : got.length ≤ n) :
    (fillBuf n got).length = n := by
  simp only [fillBuf, List.length_append, List.length_replicate]
  omega

theorem readResponse_header_length (c : Conn) (hdr body : Bytes) (c' : Conn)
    (h : readResponse c = some (hdr, body, c')) : hdr.length = 19 := by
  unfold readResponse at h
  split at h
  · exact absurd h (by simp)
  · rename_i got c1 heq
    dsimp only at h
    split at h
    · exact absurd h (by simp)
    · split at h
      · exact absurd h (by simp)
      · split at h
        · exact absurd h (by simp)
        · rename_i got2 c2 heq2
          obtain ⟨rfl, -, -⟩ : hdr = _ ∧ _ ∧ _ := by
            simpa using h.symm
          exact fillBuf_length 19 got (connRead_got_length c 19 got c1 heq)

set_option maxRecDepth 20000

/-- A 16-byte sample session key, the one the logon scenario in the
specification uses. -/
def sampleKey : String := "SESSIONKEY000001"

/-- The frame the sender emits for a 25-byte enquire-link payload. -/
def frameC1 : Bytes := sendMessage "<ENQRequest></ENQRequest>".data sampleKey

/-- C1: the claim says every outbound frame is a 19-byte header (key padded
to 16 bytes, then a 3-digit field holding payload length + 19) followed by
the payload, and that the sender never constructs a larger header. The code
disagrees: `createHeader` always builds a 32-byte header, and for the
25-byte sample payload the emitted frame is 57 bytes — key, then the digits
"057" (= 25 + 32, not 25 + 19 = 44), then 13 zero filler bytes, then the
payload. -/
theorem C1_sender_builds_32_byte_header :
    (∀ (sid : String) (L : Nat), (createHeader sid L).length = 32) ∧
    frameC1.length = 57 ∧
    frameC1.take 16 = sampleKey.data ∧
    (frameC1.drop 16).take 3 = "057".data ∧
    (frameC1.drop 19).take 13 = List.replicate 13 nulByte ∧
    frameC1.drop 32 = "<ENQRequest></ENQRequest>".data ∧
    frameC1.length ≠ "<ENQRequest></ENQRequest>".data.length + 19 :=
  ⟨createHeader_length, by decide⟩

/-- The frame the sender emits for the one-byte payload "A". -/
def frameC2 : Bytes := sendMessage "A".data sampleKey

/-- C2: the round trip fails. For the valid pair (16-byte key, 1-byte
payload "A", well within the 3-digit field), feeding the emitted frame back
through the frame parser yields a header whose length field reads "033" and
a body of thirteen zero bytes, the payload byte, and three more zero bytes
— not the original payload. -/
theorem C2_roundtrip_fails :
    readResponse ⟨[frameC2]⟩ =
      some (sampleKey.data ++ "033".data,
        List.replicate 13 nulByte ++ "A".data ++ List.replicate 3 nulByte, ⟨[]⟩) ∧
    List.replicate 13 nulByte ++ "A".data ++ List.replicate 3 nulByte ≠ "A".data ∧
    sampleKey.data.length ≤ 16 ∧
    "A".data.length + 19 ≤ 999 := by decide

/-- C3: the claim says encoding fails exactly when payload length + 19
exceeds 999 and that no frame is then emitted. The code has no failure path
at all: a frame of 32 + payload bytes is emitted for every payload, and for
a 981-byte payload (981 + 19 = 1000 > 999) the length field silently runs
to the four digits "1013" (= 981 + 32) instead of erroring. -/
theorem C3_encoder_never_fails :
    (∀ (message : Bytes) (sid : String), (sendMessage message sid).length = 32 + message.length) ∧
    ((sendMessage (List.replicate 981 'A') sampleKey).drop 16).take 4 = "1013".data ∧
    981 + 19 > 999 :=
  ⟨fun message sid => sendMessage_length message sid, by decide, by decide⟩

/-- A received header declaring total length 25, so 9 body bytes follow. -/
def hdrC4 : Bytes := sampleKey.data ++ "025".data

/-- C4: the claim says a short read (fewer body bytes available than the
declared length promises) yields a framing error, never a silently
truncated success. The code ignores the byte count `conn.Read` returns: a
header declaring length 25 followed by only 5 of the 9 promised body bytes
is returned as a success whose body is the 5 bytes zero-padded to 9 —
a silent truncation. -/
theorem C4_short_read_returns_truncated_success :
    readResponse ⟨[hdrC4, "hello".data]⟩ =
      some (hdrC4, "hello".data ++ List.replicate 4 nulByte, ⟨[]⟩) ∧
    "hello".data.length < 25 - 16 := by decide

/-- C5: a USSDRequest carrying a non-empty errorCode, or carrying
endOfSession = 1, terminates the handler without any outbound frame,
whatever the resolver would have answered. -/
theorem C5_error_or_ended_session_emits_no_frame
    (resolver : USSDRequest → Option USSDMenuResponse) (req : USSDRequest)
    (h : req.ErrorCode ≠ "" ∨ req.EndOfSession = 1) :
    emitted (handleUSSDRequest resolver req) = none := by
  unfold handleUSSDRequest
  rcases h with h | h
  · rw [if_pos h]
    rfl
  · by_cases he : req.ErrorCode ≠ ""
    · rw [if_pos he]
      rfl
    · rw [if_neg he, if_neg (by omega : ¬req.EndOfSession = 0)]
      rfl

/-- A terminal inbound event: endOfSession already 1. -/
def reqC5 : USSDRequest :=
  { RequestID := "R9", MSISDN := "2348000000000", StarCode := "123", ClientID := "7",
    Phase := 2, DCS := 15, MsgType := 1, UserData := "1", EndOfSession := 1 }

theorem C5_witness :
    reqC5.EndOfSession = 1 ∧
    emitted (handleUSSDRequest (fun _ => none) reqC5) = none :=
  ⟨rfl, C5_error_or_ended_session_emits_no_frame (fun _ => none) reqC5 (Or.inr rfl)⟩

/-- C6: a continuing request (empty errorCode, endOfSession 0) whose
msgType is outside {1, 4} or whose userData is empty ends as `dropped` —
no outbound frame; the outcome holds for every resolver, so the resolver is
never consulted. -/
theorem C6_invalid_request_dropped_before_resolver
    (resolver : USSDRequest → Option USSDMenuResponse) (req : USSDRequest)
    (he : req.ErrorCode = "") (hs : req.EndOfSession = 0)
    (hv : (req.MsgType ≠ 1 ∧ req.MsgType ≠ 4) ∨ req.UserData = "") :
    handleUSSDRequest resolver req = .dropped := by
  unfold handleUSSDRequest
  rw [if_neg (by simp [he]), if_pos hs]
  unfold handleMenuRequest
  rcases hv with hv | hv
  · rw [if_pos hv]
  · by_cases hm : req.MsgType ≠ 1 ∧ req.MsgType ≠ 4
    · rw [if_pos hm]
    · rw [if_neg hm, if_pos hv]

/-- A continuing request with an unaccepted message type. -/
def reqC6 : USSDRequest :=
  { RequestID := "R3", MSISDN := "2348000000000", StarCode := "123", ClientID := "7",
    Phase := 2, DCS := 15, MsgType := 9, UserData := "1", EndOfSession := 0 }

theorem C6_witness :
    reqC6.ErrorCode = "" ∧ reqC6.EndOfSession = 0 ∧
    (reqC6.MsgType ≠ 1 ∧ reqC6.MsgType ≠ 4) ∧
    handleUSSDRequest (fun _ => some { Message := "menu", Continue := true }) reqC6
      = HandlerOutcome.dropped :=
  ⟨rfl, rfl, ⟨by decide, by decide⟩,
    C6_invalid_request_dropped_before_resolver _ reqC6 rfl rfl
      (Or.inl ⟨by decide, by decide⟩)⟩

/-- C7: for a valid continuing request on which the resolver succeeds, the
handler emits exactly the frame for the response record that copies
requestId, msisdn, starCode, clientId, phase and dcs from the request,
takes userData from the resolver message, sets endOfSession 0 on continue
and 1 on stop — and the frame is keyed by the requestId of the dialog
(its 16-byte key field is the padded requestId, no connection key occurs
anywhere in the statement). -/
theorem C7_reply_copies_fields_and_keys_by_requestId
    (resolver : USSDRequest → Option USSDMenuResponse) (req : USSDRequest)
    (r : USSDMenuResponse)
    (he : req.ErrorCode = "") (hs : req.EndOfSession = 0)
    (hm : req.MsgType = 1 ∨ req.MsgType = 4) (hu : req.UserData ≠ "")
    (hr : resolver req = some r) :
    ∃ frame, handleUSSDRequest resolver req = .sent frame ∧
      frame = sendMessage (ussdResponseXML (responseFor req r)) req.RequestID ∧
      frame.take 16 = pad16 req.RequestID.data := by
  refine ⟨_, ?_, rfl, sendMessage_key _ _⟩
  unfold handleUSSDRequest handleMenuRequest
  rw [if_neg (by simp [he]), if_pos hs,
    if_neg (by rcases hm with h | h <;> simp [h]), if_neg hu, hr]
  obtain ⟨msg, cont⟩ := r
  cases cont <;> rfl

/-- The menu-request scenario of the specification. -/
def reqC7 : USSDRequest :=
  { RequestID := "R1", MSISDN := "2348011112222", StarCode := "123", ClientID := "41",
    Phase := 2, DCS := 15, MsgType := 1, UserData := "1", EndOfSession := 0 }

/-- A resolver answering the scenario menu text with continue = true. -/
def resolverC7 : USSDRequest → Option USSDMenuResponse :=
  fun _ => some { Message := "Menu text", Continue := true }

theorem C7_witness :
    ∃ frame, handleUSSDRequest resolverC7 reqC7 = .sent frame ∧
      frame = sendMessage (ussdResponseXML (responseFor reqC7
        { Message := "Menu text", Continue := true })) "R1" ∧
      frame.take 16 = pad16 "R1".data :=
  C7_reply_copies_fields_and_keys_by_requestId resolverC7 reqC7
    { Message := "Menu text", Continue := true } rfl rfl (Or.inl rfl) (by decide) rfl

/-- C8: whenever the logon read returns a response, the session key the
code keeps is the first 16 bytes of the response header (not the request
identifier the client sent: no request identifier occurs in the statement),
and every keepalive frame of the connection carries exactly those 16 bytes
in its key field. -/
theorem C8_keepalives_carry_response_header_key
    (c : Conn) (hdr body : Bytes) (c' : Conn) (n : Nat) (f : Bytes)
    (h : readResponse c = some (hdr, body, c'))
    (hf : f ∈ keepaliveFrames (extractSessionID hdr) n) :
    f.take 16 = hdr.take 16 := by
  have hlen : hdr.length = 19 := readResponse_header_length c hdr body c' h
  have hmem := List.eq_of_mem_replicate hf
  subst hmem
  rw [keepaliveFrame, sendMessage_key]
  have hdata : (extractSessionID hdr).data = hdr.take 16 := rfl
  rw [hdata]
  unfold pad16
  rw [List.take_take, Nat.min_self]
  have h16 : (hdr.take 16).length = 16 := by
    rw [List.length_take]
    omega
  rw [h16]
  simp

/-- The logon response arriving as one chunk: header keyed with the sample
session key, declared length 25, and a 9-byte body. -/
def connC8 : Conn := ⟨[sampleKey.data ++ "025".data ++ "LOGON OK!".data]⟩

theorem C8_witness :
    readResponse connC8
      = some (sampleKey.data ++ "025".data, "LOGON OK!".data, ⟨[]⟩) ∧
    (keepaliveFrame (extractSessionID (sampleKey.data ++ "025".data))).take 16
      = (sampleKey.data ++ "025".data).take 16 :=
  ⟨by decide,
    C8_keepalives_carry_response_header_key connC8 _ "LOGON OK!".data ⟨[]⟩ 3 _
      (by decide)
      (List.mem_replicate.mpr ⟨by decide, rfl⟩)⟩

/-- C10: whenever the handler emits a reply frame, that frame is the
encoding of a response record whose msgtype is 2 exactly when the resolver
said continue (endOfSession 0) and 6 exactly when it said stop
(endOfSession 1); no reply with any other msgtype is ever produced. -/
theorem C10_reply_msgtype_is_2_or_6
    (resolver : USSDRequest → Option USSDMenuResponse) (req : USSDRequest)
    (f : Bytes)
    (h : handleUSSDRequest resolver req = .sent f) :
    ∃ r, resolver req = some r ∧
      f = sendMessage (ussdResponseXML (responseFor req r)) req.RequestID ∧
      (responseFor req r).MsgType = (if r.Continue then 2 else 6) ∧
      ((responseFor req r).MsgType = 2 ∧ (responseFor req r).EndOfSession = 0 ∨
       (responseFor req r).MsgType = 6 ∧ (responseFor req r).EndOfSession = 1) := by
  unfold handleUSSDRequest at h
  split at h
  · simp at h
  · split at h
    · unfold handleMenuRequest at h
      split at h
      · simp at h
      · split at h
        · simp at h
        · cases hr : resolver req with
          | none =>
            rw [hr] at h
            simp at h
          | some r =>
            rw [hr] at h
            obtain ⟨msg, cont⟩ := r
            refine ⟨⟨msg, cont⟩, rfl, ?_, ?_, ?_⟩
            · cases cont <;> (injection h with hX; exact hX.symm)
            · cases cont <;> rfl
            · cases cont
              · exact Or.inr ⟨rfl, rfl⟩
              · exact Or.inl ⟨rfl, rfl⟩
    · simp at h

/-- A valid free-text request whose dialog the resolver terminates. -/
def reqC10 : USSDRequest :=
  { RequestID := "R2", MSISDN := "2348011112222", StarCode := "123", ClientID := "41",
    Phase := 2, DCS := 15, MsgType := 4, UserData := "9", EndOfSession := 0 }

/-- A resolver that answers and ends the dialog. -/
def resolverC10 : USSDRequest → Option USSDMenuResponse :=
  fun _ => some { Message := "Bye", Continue := false }

/-- The frame the responder emits for reqC10 under resolverC10. -/
def frameC10 : Bytes :=
  sendMessage (ussdResponseXML (responseFor reqC10 { Message := "Bye", Continue := false })) "R2"

theorem C10_witness :
    handleUSSDRequest resolverC10 reqC10 = .sent frameC10 ∧
    (∃ r, resolverC10 reqC10 = some r ∧
      frameC10 = sendMessage (ussdResponseXML (responseFor reqC10 r)) reqC10.RequestID ∧
      (responseFor reqC10 r).MsgType = (if r.Continue then 2 else 6) ∧
      ((responseFor reqC10 r).MsgType = 2 ∧ (responseFor reqC10 r).EndOfSession = 0 ∨
       (responseFor reqC10 r).MsgType = 6 ∧ (responseFor reqC10 r).EndOfSession = 1)) :=
  ⟨by decide, C10_reply_msgtype_is_2_or_6 resolverC10 reqC10 frameC10 (by decide)⟩

end USSDTCP
